import Mathlib

/- A shallow embedding of the Vespa indexing pipeline of the
navigator-search-indexer repository (src/index/vespa_.py together with the
block filtering of src/utils.py), followed by theorems checking the
repository's specification against it.  External collaborators (the Vespa
client, the filesystem, numpy, the retry library) appear as explicit
parameters or as small models of their documented contracts; everything the
repository itself computes is translated function by function. -/

namespace NavigatorSearchIndexer

/-- The three Vespa schemas written by the indexer (`_SCHEMAS_TO_PROCESS` in
src/index/vespa_.py). -/
inductive SchemaName where
  | search_weights
  | family_document
  | document_passage
  deriving DecidableEq, Repr

/-- The Vespa namespace constant `_NAMESPACE`. -/
def NAMESPACE : String := "doc_search"

/-- `VespaSearchWeights`: weights applied to each ranking element. -/
structure VespaSearchWeights where
  name_weight : Float
  description_weight : Float
  passage_weight : Float

/-- A parsed text block as consumed from the parser output: either an HTML
block or a PDF block (`PDFTextBlock` in the parser models), the latter
carrying a page number and polygon coordinates. -/
inductive TextBlock where
  | html (text : List String) (text_block_id : String) (btype : String)
  | pdf (text : List String) (text_block_id : String) (btype : String)
      (page_number : Int) (coords : List (Float × Float))

/-- The text lines of a block. -/
def TextBlock.text : TextBlock → List String
  | .html t _ _ => t
  | .pdf t _ _ _ _ => t

/-- The identifier of a block. -/
def TextBlock.text_block_id : TextBlock → String
  | .html _ i _ => i
  | .pdf _ i _ _ _ => i

/-- The type label of a block (`str(text_block.type)`). -/
def TextBlock.type : TextBlock → String
  | .html _ _ ty => ty
  | .pdf _ _ ty _ _ => ty

/-- `text_block.page_number if isinstance(text_block, PDFTextBlock) else None`. -/
def TextBlock.pdf_page_number : TextBlock → Option Int
  | .html _ _ _ => none
  | .pdf _ _ _ p _ => some p

/-- `text_block.coords if isinstance(text_block, PDFTextBlock) else None`. -/
def TextBlock.pdf_coords : TextBlock → Option (List (Float × Float))
  | .html _ _ _ => none
  | .pdf _ _ _ _ c => some c

/-- A loosely-typed Python value, as found in the free-form metadata map of a
parsed document (its values are typed as rendered JSON in practice, not
checked upstream). -/
inductive PyValue where
  | str (s : String)
  | int (n : Int)
  | bool (b : Bool)
  | pyNone
  deriving DecidableEq, Repr

/-- Python `isinstance(value, int)`: true for `int` and also for `bool`,
because `bool` is a subclass of `int` in Python. -/
def pyIsInstanceInt : PyValue → Bool
  | .int _ => true
  | .bool _ => true
  | _ => false

/-- Python `str(value)` for the values that can reach it. -/
def pyStrOf : PyValue → String
  | .str s => s
  | .int n => toString n
  | .bool b => if b then "True" else "False"
  | .pyNone => "None"

/-- The exceptions the embedded code can raise. -/
inductive PyExc where
  | valueError (label : String)
  | nameError
  | indexError
  | validationError (offending : PyValue)
  | vespaIndexError (msg : String)
  deriving DecidableEq, Repr

/-- `VespaFamilyDocument.MetadataItem`: a single metadata object. -/
structure MetadataItem where
  name : String
  value : String
  deriving DecidableEq, Repr

/-- Constructing `MetadataItem(name=..., value=...)`: pydantic validates that
`value` is a `str` and raises a `ValidationError` otherwise (pydantic v2 does
not coerce numbers or booleans into a `str` field). -/
def metadata_item_new (name : String) (value : PyValue) : Except PyExc MetadataItem :=
  match value with
  | .str s => .ok { name := name, value := s }
  | v => .error (.validationError v)

/-- The list comprehension inside `reshape_metadata`: one `MetadataItem` per
value of one key, each value converted with
`str(value) if isinstance(value, int) else value`; like Python, the first
invalid value aborts the comprehension with the pydantic error. -/
def map_metadata_items (k : String) : List PyValue → Except PyExc (List MetadataItem)
  | [] => .ok []
  | value :: rest => do
      let item ← metadata_item_new k
        (if pyIsInstanceInt value then .str (pyStrOf value) else value)
      let items ← map_metadata_items k rest
      .ok (item :: items)

/-- The `for key, values in metadata.items(): metadata_items.extend([...])`
loop of `reshape_metadata`, over the map as an association list in iteration
order. -/
def reshape_metadata_items : List (String × List PyValue) → Except PyExc (List MetadataItem)
  | [] => .ok []
  | kv :: rest => do
      let items ← map_metadata_items kv.1 kv.2
      let more ← reshape_metadata_items rest
      .ok (items ++ more)

/-- `reshape_metadata` from src/index/vespa_.py: `None` passes through,
otherwise the metadata map is flattened into a list of `MetadataItem`. -/
def reshape_metadata (metadata : Option (List (String × List PyValue))) :
    Except PyExc (Option (List MetadataItem)) :=
  match metadata with
  | none => .ok none
  | some m => do
      let items ← reshape_metadata_items m
      .ok (some items)

/-- A publication timestamp; only `isoformat()` and `.year` are consumed. -/
structure DateTime where
  isoformat : String
  year : Int

/-- The fields of `task.document_metadata` (a `BackendDocument` of the parser
models) that the family-document builder reads. -/
structure BackendDocument where
  import_id : String
  family_import_id : String
  family_slug : String
  publication_ts : DateTime
  category : String
  geography : String
  geographies : Option (List String)
  source : String
  source_url : Option String
  document_title : Option String
  corpus_import_id : Option String
  corpus_type_name : Option String
  collection_title : Option String
  collection_summary : Option String
  languages : List String
  metadata : Option (List (String × List PyValue))

/-- One document as seen by the body of `get_document_generator`, after the
per-document I/O of its steps 1 to 3: the parsed `ParserOutput` fields that
are read, the text blocks the generator iterates (`task.get_text_blocks()`
after `filter_on_block_type` and the vertical-flip fallback), and the rows of
the embedding matrix loaded by `read_npy_file` (row 0 is the description
embedding).  The embedding-row type `E` is abstract: the pipeline only moves
embedding rows around, it never inspects them. -/
structure DocTask (E : Type) where
  document_id : String
  document_name : String
  document_description : String
  document_slug : String
  document_md5_sum : Option String
  document_content_type : Option String
  document_cdn_object : Option String
  document_metadata : BackendDocument
  text_blocks : List TextBlock
  embeddings : List E

/-- `VespaFamilyDocument`: family-document combined data for search. -/
structure VespaFamilyDocument (E : Type) where
  search_weights_ref : String
  family_name : String
  family_name_index : String
  family_description : String
  family_description_index : String
  family_description_embedding : E
  family_import_id : String
  family_slug : String
  family_publication_ts : String
  family_publication_year : Int
  family_category : String
  family_geography : String
  family_source : String
  document_import_id : String
  document_slug : String
  document_languages : List String
  document_md5_sum : Option String
  document_content_type : Option String
  document_cdn_object : Option String
  document_source_url : Option String
  document_title : Option String
  family_geographies : Option (List String)
  corpus_import_id : Option String
  corpus_type_name : Option String
  collection_title : Option String
  collection_summary : Option String
  metadata : Option (List MetadataItem)

/-- `VespaDocumentPassage`: document passage representation for search. -/
structure VespaDocumentPassage (E : Type) where
  search_weights_ref : String
  family_document_ref : String
  text_block : String
  text_block_id : String
  text_block_type : String
  text_block_page : Option Int
  text_block_coords : Option (List (Float × Float))
  text_embedding : E

/-- `build_vespa_family_document` from src/index/vespa_.py.  `embeddings[0]`
raises an `IndexError` on an empty matrix (evaluated first, matching the
evaluation order of the keyword arguments); the pydantic validation inside
`reshape_metadata` is the only other failure mode reachable from typed
inputs. -/
def build_vespa_family_document {E : Type} (task : DocTask E) (embeddings : List E)
    (search_weights_ref : String) : Except PyExc (VespaFamilyDocument E) := do
  let family_description_embedding ← match embeddings with
    | [] => Except.error PyExc.indexError
    | e :: _ => Except.ok e
  let metadata ← reshape_metadata task.document_metadata.metadata
  Except.ok
    { search_weights_ref := search_weights_ref
      family_name := task.document_name
      family_name_index := task.document_name
      family_description := task.document_description
      family_description_index := task.document_description
      family_description_embedding := family_description_embedding
      family_import_id := task.document_metadata.family_import_id
      family_slug := task.document_metadata.family_slug
      family_publication_ts := task.document_metadata.publication_ts.isoformat
      family_publication_year := task.document_metadata.publication_ts.year
      family_category := task.document_metadata.category
      family_geography := task.document_metadata.geography
      family_source := task.document_metadata.source
      document_import_id := task.document_id
      document_slug := task.document_slug
      document_languages := task.document_metadata.languages
      document_md5_sum := task.document_md5_sum
      document_content_type := task.document_content_type
      document_cdn_object := task.document_cdn_object
      document_source_url := task.document_metadata.source_url
      document_title := task.document_metadata.document_title
      family_geographies := task.document_metadata.geographies
      corpus_import_id := task.document_metadata.corpus_import_id
      corpus_type_name := task.document_metadata.corpus_type_name
      collection_title := task.document_metadata.collection_title
      collection_summary := task.document_metadata.collection_summary
      metadata := metadata }

/-- `build_vespa_document_passage` from src/index/vespa_.py. -/
def build_vespa_document_passage {E : Type} (family_document_id search_weights_ref : String)
    (text_block : TextBlock) (embedding : E) : VespaDocumentPassage E :=
  { family_document_ref := "id:" ++ NAMESPACE ++ ":family_document::" ++ family_document_id
    search_weights_ref := search_weights_ref
    text_block := String.intercalate "\n" text_block.text
    text_block_id := text_block.text_block_id
    text_block_type := text_block.type
    text_block_page := text_block.pdf_page_number
    text_block_coords := text_block.pdf_coords
    text_embedding := embedding }

/-- `determine_stray_ids`: Python computes `list(set(existing) - set(new))`,
whose element set is the set difference and whose enumeration order is
unspecified; the embedding enumerates the same set in a fixed order (all
claims about it are stated on the underlying finite set). -/
def determine_stray_ids (existing_doc_passage_ids new_passage_ids : List String) :
    List String :=
  (existing_doc_passage_ids.filter (fun i => decide (i ∉ new_passage_ids))).dedup

/-- The fixed id of the singleton ranking-weights record. -/
def search_weights_id : String := "default_weights"

/-- The fixed weights yielded at the start of every run. -/
def default_search_weights : VespaSearchWeights :=
  { name_weight := 2.5, description_weight := 2.0, passage_weight := 1.0 }

/-- `search_weights_ref` as computed once per run in `get_document_generator`. -/
def search_weights_ref : String :=
  "id:" ++ NAMESPACE ++ ":search_weights::" ++ search_weights_id

/-- One record yielded by the generator, tagged by its pydantic model. -/
inductive VespaRecord (E : Type) where
  | search_weights (w : VespaSearchWeights)
  | family_document (d : VespaFamilyDocument E)
  | document_passage (p : VespaDocumentPassage E)

/-- An observable step of `get_document_generator`: either a yielded
`(schema, id, fields)` tuple or a `vespa.delete_data` call made by
`remove_ids`. -/
inductive GenEvent (E : Type) where
  | yield (schema : SchemaName) (id : String) (fields : VespaRecord E)
  | delete_data (schema : SchemaName) (data_id : String)

/-- `zip(text_blocks, embeddings[1:, :])` with `enumerate` indices, exactly as
iterated by the passage loop of `get_document_generator`. -/
def passage_pairs {E : Type} (task : DocTask E) : List (Nat × (TextBlock × E)) :=
  (task.text_blocks.zip (task.embeddings.drop 1)).enum

/-- The passage id minted for position `idx`. -/
def new_passage_id {E : Type} (task : DocTask E) (idx : Nat) : String :=
  task.document_id ++ "." ++ toString idx

/-- The `(id, passage)` pairs yielded for one document by the passage loop. -/
def doc_passages {E : Type} (task : DocTask E) : List (String × VespaDocumentPassage E) :=
  (passage_pairs task).map (fun p =>
    (new_passage_id task p.1,
     build_vespa_document_passage task.document_metadata.import_id search_weights_ref
       p.2.1 p.2.2))

/-- `new_passage_ids` as accumulated by the passage loop. -/
def new_passage_ids {E : Type} (task : DocTask E) : List String :=
  (passage_pairs task).map (fun p => new_passage_id task p.1)

/-- The per-document body of the loop of `get_document_generator`: build and
yield the family document, fetch the existing passage ids (`fetch` abstracts
`get_existing_passage_ids vespa family_document_id`), yield the sequence of
passages, then delete the stray ids through `remove_ids` when there are any.
An uncaught exception ends the stream. -/
def doc_events {E : Type} (fetch : String → List String) (task : DocTask E) :
    Except PyExc (List (GenEvent E)) := do
  let family_document_id := task.document_metadata.import_id
  let family_document ← build_vespa_family_document task task.embeddings search_weights_ref
  let existing_doc_passage_ids := fetch family_document_id
  let stray_ids := determine_stray_ids existing_doc_passage_ids (new_passage_ids task)
  Except.ok
    (GenEvent.yield SchemaName.family_document family_document_id
        (VespaRecord.family_document family_document)
      :: (doc_passages task).map (fun p =>
          GenEvent.yield SchemaName.document_passage p.1 (VespaRecord.document_passage p.2))
      ++ (if stray_ids.isEmpty then []
          else stray_ids.map (fun i => GenEvent.delete_data SchemaName.document_passage i)))

/-- The document loop of `get_document_generator`; the optional exception is
the error that ended the run early, with the events produced before it. -/
def gen_loop {E : Type} (fetch : String → List String) :
    List (DocTask E) → List (GenEvent E) × Option PyExc
  | [] => ([], none)
  | task :: rest =>
      match doc_events fetch task with
      | .error e => ([], some e)
      | .ok evs =>
          let r := gen_loop fetch rest
          (evs ++ r.1, r.2)

/-- `get_document_generator`: the full event stream of one run over a batch of
documents.  The ranking-weights record is yielded first, before the loop. -/
def get_document_generator {E : Type} (fetch : String → List String)
    (tasks : List (DocTask E)) : List (GenEvent E) × Option PyExc :=
  let r := gen_loop fetch tasks
  (GenEvent.yield SchemaName.search_weights search_weights_id
      (VespaRecord.search_weights default_search_weights) :: r.1, r.2)

/-- The id of a delete call, if the event is one. -/
def GenEvent.delete_id? {E : Type} : GenEvent E → Option String
  | .delete_data _ i => some i
  | _ => none

/-- The ids passed to `vespa.delete_data` in a stretch of events. -/
def delete_ids {E : Type} (evs : List (GenEvent E)) : List String :=
  evs.filterMap GenEvent.delete_id?

/-- Whether an event yields a ranking-weights record. -/
def is_search_weights_yield {E : Type} : GenEvent E → Bool
  | .yield SchemaName.search_weights _ _ => true
  | _ => false

/-- The set of passage ids indexed for one document after a successful run:
starting from the ids already indexed, the ids deleted by `remove_ids` are
removed and every freshly yielded passage id is written (each write is an
upsert keyed by the passage id). -/
def index_after_run (existing : Finset String) (fresh deleted : List String) :
    Finset String :=
  (existing \ deleted.toFinset) ∪ fresh.toFinset

/-- One response of `vespa.query` for the paginated passage-id query:
`response.hits`, the page of hits (each hit carrying its full Vespa document
id), and `response.number_documents_retrieved`, the total number of matches
the backend reports. -/
structure QueryResponse where
  hits : List String
  number_documents_retrieved : Nat

/-- The page size requested by `get_existing_passage_ids` (`max_hits`). -/
def max_hits : Nat := 5000

/-- Character-level model of Python `s.split("::")[-1]`: the segment after
the last occurrence of `"::"`, scanning left to right. -/
def last_colon_segment (cur : List Char) : List Char → List Char
  | ':' :: ':' :: rest => last_colon_segment [] rest
  | c :: rest => last_colon_segment (c :: cur) rest
  | [] => cur.reverse

/-- `hit["id"].split("::")[-1]`, the passage id inside a hit's document id. -/
def hit_passage_id (hit_id : String) : String :=
  { data := last_colon_segment [] hit_id.data }

/-- `get_existing_passage_ids` from src/index/vespa_.py, with the backend
abstracted as the function from the requested offset to the response it
returns; the other parts of the query body are fixed.  The Python recursion
has no intrinsic bound, so the embedding carries fuel: `none` means the
recursion was still running when the fuel ran out, and every theorem about it
supplies enough fuel. -/
def get_existing_passage_ids (backend : Nat → QueryResponse) :
    Nat → Nat → Option (List String)
  | 0, _ => none
  | fuel + 1, offset =>
      let response := backend offset
      let existing_ids := response.hits.map hit_passage_id
      if response.hits.length + offset < response.number_documents_retrieved then
        match get_existing_passage_ids backend fuel (offset + max_hits) with
        | none => none
        | some rest => some (existing_ids ++ rest)
      else
        some existing_ids

/-- A backend that serves pages of the requested size from the fixed hit list
`all_ids`: the page at `offset` holds the next `max_hits` hits from position
`offset` on, and the reported total is the length of the list. -/
def full_page_backend (all_ids : List String) (offset : Nat) : QueryResponse :=
  { hits := (all_ids.drop offset).take max_hits
    number_documents_retrieved := all_ids.length }

/-- A backend holding two passages of document `A` but capping every page at
a single hit — a page smaller than the requested `max_hits`; the reported
total is still 2. -/
def capped_page_backend (offset : Nat) : QueryResponse :=
  { hits := ((["id:doc_search:document_passage::A.0",
      "id:doc_search:document_passage::A.1"].drop offset).take 1)
    number_documents_retrieved := 2 }

/-- The HTML payload of a parsed document, as far as filtering touches it. -/
structure HTMLData where
  has_valid_text : Bool
  text_blocks : List TextBlock

/-- The PDF payload of a parsed document, as far as filtering touches it. -/
structure PDFData where
  text_blocks : List TextBlock

/-- The slice of an indexer input (parser output) that block filtering reads
and rewrites. -/
structure IndexerInput where
  document_id : String
  pdf_data : Option PDFData
  html_data : Option HTMLData

/-- `get_text_blocks(including_invalid_html=True)`: all blocks of the PDF or
HTML payload, also when the HTML text was marked invalid. -/
def IndexerInput.all_text_blocks (input : IndexerInput) : List TextBlock :=
  match input.pdf_data with
  | some p => p.text_blocks
  | none =>
      match input.html_data with
      | some h => h.text_blocks
      | none => []

/-- `replace_text_blocks` from src/utils.py: write the new block list into
the PDF payload when there is one, otherwise into the HTML payload. -/
def replace_text_blocks (block : IndexerInput) (new_text_blocks : List TextBlock) :
    IndexerInput :=
  match block.pdf_data with
  | some p => { block with pdf_data := some { p with text_blocks := new_text_blocks } }
  | none =>
      match block.html_data with
      | some h => { block with html_data := some { h with text_blocks := new_text_blocks } }
      | none => block

/-- Python `str.title()` character by character: the first letter of every
alphabetic run is uppercased, the following letters are lowercased, other
characters pass through.  The boolean tracks whether the previous character
was alphabetic. -/
def pyTitleGo : Bool → List Char → List Char
  | _, [] => []
  | prev, c :: cs =>
      (if c.isAlpha then (if prev then c.toLower else c.toUpper) else c)
        :: pyTitleGo c.isAlpha cs

/-- Python `s.title()`. -/
def pyTitle (s : String) : String := { data := pyTitleGo false s.data }

/-- `filter_blocks` from src/utils.py: keep the blocks whose title-cased type
label is not in `remove_block_types`; a removed block is logged, never an
error. -/
def filter_blocks (indexer_input : IndexerInput) (remove_block_types : List String) :
    List TextBlock :=
  indexer_input.all_text_blocks.filter
    (fun block => decide (pyTitle block.type ∉ remove_block_types))

/-- Modelled from the spec: the call `BlockTypes(_filter)` inside
`filter_on_block_type`.  `BlockTypes`, the enumeration of recognized
block-type labels, is imported from `src.base` but its definition is not in
the snapshot; the spec describes it as the schema of recognized block types.
As a standard Python `Enum` lookup (like the `BlockType` enumeration the
repository's tests import from the data-access package), it succeeds on a
recognized label and raises a `ValueError` — not a `NameError` — on an
unrecognized one.  The set of recognized labels stays a parameter. -/
def block_types_call (recognized : String → Bool) (label : String) : Except PyExc Unit :=
  if recognized label then .ok () else .error (.valueError label)

/-- The validation loop at the top of `filter_on_block_type`, with Python's
list-iterator semantics made explicit: the loop walks an index over the
(possibly shrinking) list; `try: BlockTypes(_filter) except NameError:` logs
a warning and removes the label from the list only for a `NameError`, so any
other exception escapes the loop uncaught. -/
def validate_filters_loop (recognized : String → Bool) (lst : List String) (i : Nat) :
    Except PyExc (List String) :=
  if h : i < lst.length then
    match block_types_call recognized (lst.get ⟨i, h⟩) with
    | .ok _ => validate_filters_loop recognized lst (i + 1)
    | .error PyExc.nameError =>
        validate_filters_loop recognized (lst.erase (lst.get ⟨i, h⟩)) (i + 1)
    | .error e => .error e
  else
    .ok lst
termination_by lst.length - i
decreasing_by
  · omega
  · have hle := List.length_erase_le (lst.get ⟨i, h⟩) lst
    omega

/-- `filter_on_block_type` from src/utils.py: validate the filter labels
(dropping those the `except NameError` branch actually catches), then filter
the text blocks of every input in place. -/
def filter_on_block_type (recognized : String → Bool) (inputs : List IndexerInput)
    (remove_block_types : List String) : Except PyExc (List IndexerInput) := do
  let remaining ← validate_filters_loop recognized remove_block_types 0
  Except.ok (inputs.map (fun input =>
    replace_text_blocks input (filter_blocks input remaining)))

/-- A Vespa feed response as seen by the feed callback. -/
structure VespaResponse where
  is_successful : Bool
  json : String

/-- `_handle_feed_error` from src/index/vespa_.py: the per-record feed
callback; raises a `VespaIndexError` carrying the record id and the response
body on any non-success status. -/
def handle_feed_error (response : VespaResponse) (id : String) : Except PyExc Unit :=
  if !response.is_successful then
    .error (.vespaIndexError
      ("Indexing Failed on document with id: " ++ id ++ ", body: " ++ response.json))
  else .ok ()

/-- The per-schema buffers `to_process` of `populate_vespa`, one list for
each schema of `_SCHEMAS_TO_PROCESS`; `φ` is the type of a record's fields
dict. -/
structure ToProcess (φ : Type) where
  search_weights : List (String × φ)
  family_document : List (String × φ)
  document_passage : List (String × φ)

/-- A fresh (or just cleared) `to_process` map. -/
def ToProcess.empty (φ : Type) : ToProcess φ :=
  { search_weights := [], family_document := [], document_passage := [] }

/-- The buffer of one schema. -/
def ToProcess.buffer {φ : Type} (tp : ToProcess φ) : SchemaName → List (String × φ)
  | .search_weights => tp.search_weights
  | .family_document => tp.family_document
  | .document_passage => tp.document_passage

/-- `to_process[schema].append(record)`. -/
def ToProcess.append {φ : Type} (tp : ToProcess φ) (schema : SchemaName)
    (doc : String × φ) : ToProcess φ :=
  match schema with
  | .search_weights => { tp with search_weights := tp.search_weights ++ [doc] }
  | .family_document => { tp with family_document := tp.family_document ++ [doc] }
  | .document_passage => { tp with document_passage := tp.document_passage ++ [doc] }

/-- `vespa.feed_iterable(iter=documents, ..., callback=_handle_feed_error)`:
the backend answers each fed record id with a response (`respond`), the
callback runs per record, and the first failing callback raises out of the
flush. -/
def feed_iterable {φ : Type} (respond : String → VespaResponse)
    (documents : List (String × φ)) : Except PyExc Unit :=
  documents.forM (fun doc => handle_feed_error (respond doc.1) doc.1)

/-- One attempt of `_batch_ingest` (the body, without the retry decorator):
process the schemas in `_SCHEMAS_TO_PROCESS` order, feeding each non-empty
buffer. -/
def batch_ingest {φ : Type} (respond : String → VespaResponse)
    (to_process : ToProcess φ) : Except PyExc Unit := do
  if !to_process.search_weights.isEmpty then
    feed_iterable respond to_process.search_weights
  if !to_process.family_document.isEmpty then
    feed_iterable respond to_process.family_document
  if !to_process.document_passage.isEmpty then
    feed_iterable respond to_process.document_passage

/-- Modelled from the spec: the retry decorator
`retry(wait=wait_exponential(multiplier=10), stop=stop_after_attempt(10))` of
the external retry library, whose contract the spec states as "exponential
backoff, fixed maximum attempt count; after exhausting attempts, the error
propagates".  `call` maps the 1-based attempt number to that attempt's
outcome (the backend may answer differently on different attempts);
`retries` is the number of retries still allowed after the current attempt. -/
def retry_attempts (call : Nat → Except PyExc Unit) : Nat → Nat → Except PyExc Unit
  | 0, attempt => call attempt
  | retries + 1, attempt =>
      match call attempt with
      | .ok u => .ok u
      | .error _ => retry_attempts call retries (attempt + 1)

/-- `stop_after_attempt(10)`: the fixed maximum attempt count. -/
def stop_after_attempt : Nat := 10

/-- `wait_exponential(multiplier=10)`: the backoff wait grows geometrically
with the number of failed attempts. -/
def wait_exponential (n : Nat) : Nat := 10 * 2 ^ n

/-- `_batch_ingest` as decorated: up to `stop_after_attempt` attempts of the
whole flush, starting at attempt 1. -/
def batch_ingest_with_retry {φ : Type} (respond : Nat → String → VespaResponse)
    (to_process : ToProcess φ) : Except PyExc Unit :=
  retry_attempts (fun attempt => batch_ingest (respond attempt) to_process)
    (stop_after_attempt - 1) 1

/-- Modelled from the spec: the process exit status of a run — an uncaught
exception terminates the process with a non-zero exit code, a completed run
exits 0. -/
def run_exit_code (result : Except PyExc Unit) : Nat :=
  match result with
  | .ok _ => 0
  | .error _ => 1

/-- One value of a dumped pydantic model, as placed into the fields dict by
`model_dump()`. -/
inductive FieldVal (E : Type) where
  | s (v : String)
  | f (v : Float)
  | i (v : Int)
  | os (v : Option String)
  | oi (v : Option Int)
  | ls (v : List String)
  | ols (v : Option (List String))
  | coords (v : Option (List (Float × Float)))
  | emb (v : E)
  | md (v : Option (List MetadataItem))

/-- `model_dump()` of a yielded record: its fields dict as an association
list in field-declaration order. -/
def model_dump {E : Type} : VespaRecord E → List (String × FieldVal E)
  | .search_weights w =>
      [("name_weight", .f w.name_weight),
       ("description_weight", .f w.description_weight),
       ("passage_weight", .f w.passage_weight)]
  | .family_document d =>
      [("search_weights_ref", .s d.search_weights_ref),
       ("family_name", .s d.family_name),
       ("family_name_index", .s d.family_name_index),
       ("family_description", .s d.family_description),
       ("family_description_index", .s d.family_description_index),
       ("family_description_embedding", .emb d.family_description_embedding),
       ("family_import_id", .s d.family_import_id),
       ("family_slug", .s d.family_slug),
       ("family_publication_ts", .s d.family_publication_ts),
       ("family_publication_year", .i d.family_publication_year),
       ("family_category", .s d.family_category),
       ("family_geography", .s d.family_geography),
       ("family_source", .s d.family_source),
       ("document_import_id", .s d.document_import_id),
       ("document_slug", .s d.document_slug),
       ("document_languages", .ls d.document_languages),
       ("document_md5_sum", .os d.document_md5_sum),
       ("document_content_type", .os d.document_content_type),
       ("document_cdn_object", .os d.document_cdn_object),
       ("document_source_url", .os d.document_source_url),
       ("document_title", .os d.document_title),
       ("family_geographies", .ols d.family_geographies),
       ("corpus_import_id", .os d.corpus_import_id),
       ("corpus_type_name", .os d.corpus_type_name),
       ("collection_title", .os d.collection_title),
       ("collection_summary", .os d.collection_summary),
       ("metadata", .md d.metadata)]
  | .document_passage p =>
      [("search_weights_ref", .s p.search_weights_ref),
       ("family_document_ref", .s p.family_document_ref),
       ("text_block", .s p.text_block),
       ("text_block_id", .s p.text_block_id),
       ("text_block_type", .s p.text_block_type),
       ("text_block_page", .oi p.text_block_page),
       ("text_block_coords", .coords p.text_block_coords),
       ("text_embedding", .emb p.text_embedding)]

/-- The `(schema, id, fields)` tuples the ingestion loop receives from the
generator's event stream: the yields, with their fields dumped. -/
def generator_tuples {E : Type} (evs : List (GenEvent E)) :
    List (SchemaName × String × List (String × FieldVal E)) :=
  evs.filterMap (fun e => match e with
    | .yield schema id fields => some (schema, id, model_dump fields)
    | .delete_data _ _ => none)

/-- The ingestion loop of `populate_vespa` over the generator's yielded
tuples: a record with an empty (falsy) fields dict is logged and skipped; any
other record is appended to its schema's buffer; after every append, if the
document-passage buffer has reached `VESPA_DOCUMENT_BATCH_SIZE` the whole
`to_process` map is flushed and cleared; after the generator is exhausted a
final flush of the remaining buffers always runs.  The result is the sequence
of buffer states handed to `_batch_ingest`, the mandatory final flush last.
`fields_empty` is Python falsiness of the fields dict. -/
def populate_vespa_flushes {φ : Type} (fields_empty : φ → Bool) (batch_size : Nat) :
    List (SchemaName × String × φ) → ToProcess φ → List (ToProcess φ)
  | [], to_process => [to_process]
  | (schema, doc_id, fields) :: rest, to_process =>
      if fields_empty fields then
        populate_vespa_flushes fields_empty batch_size rest to_process
      else
        let tp := to_process.append schema (doc_id, fields)
        if batch_size ≤ tp.document_passage.length then
          tp :: populate_vespa_flushes fields_empty batch_size rest (ToProcess.empty φ)
        else
          populate_vespa_flushes fields_empty batch_size rest tp

/-- Python truthiness coercion of `py_coerce_str`: the string `str()` would
produce for values the metadata validation accepts after the
`isinstance(value, int)` conversion, and `none` for values pydantic rejects.
Written from the amended reading of the spec, to compare `reshape_metadata`
against. -/
def py_coerce_str (v : PyValue) : Option String :=
  match v with
  | .str s => some s
  | .int n => some (toString n)
  | .bool b => some (if b then "True" else "False")
  | .pyNone => none

/-- A concrete metadata record for the concrete checks. -/
def example_backend_document : BackendDocument :=
  { import_id := "A"
    family_import_id := "FAM.A"
    family_slug := "fam-a"
    publication_ts := { isoformat := "2020-01-01T00:00:00", year := 2020 }
    category := "Law"
    geography := "GBR"
    geographies := some ["GBR"]
    source := "CCLW"
    source_url := none
    document_title := some "Example"
    corpus_import_id := none
    corpus_type_name := none
    collection_title := none
    collection_summary := none
    languages := ["en"]
    metadata := some [("sector", [PyValue.str "energy"])] }

/-- A concrete three-block document `A` over natural-number embedding rows:
row 0 belongs to the description, rows 1 to 3 to the three blocks. -/
def example_task : DocTask Nat :=
  { document_id := "A"
    document_name := "Example doc"
    document_description := "About energy"
    document_slug := "example-doc"
    document_md5_sum := some "0f"
    document_content_type := some "application/pdf"
    document_cdn_object := none
    document_metadata := example_backend_document
    text_blocks :=
      [TextBlock.html ["first line", "second line"] "b0" "Text",
       TextBlock.pdf ["third"] "b1" "Text" 2 [],
       TextBlock.html ["fourth"] "b2" "Text"]
    embeddings := [100, 101, 102, 103] }

/-- A backend already holding four passages of document `A`. -/
def example_fetch : String → List String :=
  fun _ => ["A.0", "A.1", "A.2", "A.3"]

/-- The events of the run of `doc_events` on the example document. -/
def example_run_events : List (GenEvent Nat) :=
  ((doc_events example_fetch example_task).toOption).getD []

/-- The example document again, its metadata map carrying a boolean value. -/
def example_bool_metadata_task : DocTask Nat :=
  { example_task with
    document_metadata :=
      { example_backend_document with metadata := some [("sector", [PyValue.bool true])] } }

/-- A recognizer for the block-type labels of the concrete checks. -/
def example_recognized : String → Bool :=
  fun label => decide (label ∈ ["Text", "Table", "Figure"])

/-- A one-document input for the block-filter checks. -/
def example_filter_input : IndexerInput :=
  { document_id := "test_id"
    pdf_data := none
    html_data := some
      { has_valid_text := true
        text_blocks := [TextBlock.html ["t"] "b0" "Table", TextBlock.html ["u"] "b1" "Text"] } }

/-- A backend response that always rejects, used by the concrete checks. -/
def example_respond : Nat → String → VespaResponse :=
  fun _ _ => { is_successful := false, json := "boom" }

/-- A buffer holding a single document passage, used by the concrete checks. -/
def example_to_process : ToProcess Unit :=
  { search_weights := [], family_document := [], document_passage := [("A.0", ())] }

theorem zip_getElem?_snd {α β : Type} (as : List α) (bs : List β)
    (h : as.length = bs.length) :
    ∀ i : Nat, ((as.zip bs)[i]?).map Prod.snd = bs[i]? := by
  induction as generalizing bs with
  | nil =>
      cases bs with
      | nil => intro i; simp
      | cons b bs => simp at h
  | cons a as ih =>
      cases bs with
      | nil => simp at h
      | cons b bs =>
          intro i
          cases i with
          | zero => simp
          | succ n =>
              simpa using ih bs (by simp only [List.length_cons] at h; omega) n

theorem zip_getElem?_fst {α β : Type} (as : List α) (bs : List β) :
    ∀ i : Nat, i < bs.length → ((as.zip bs)[i]?).map Prod.fst = as[i]? := by
  induction as generalizing bs with
  | nil => intro i hi; simp
  | cons a as ih =>
      cases bs with
      | nil => intro i hi; simp at hi
      | cons b bs =>
          intro i hi
          cases i with
          | zero => simp
          | succ n =>
              simpa using ih bs n (by simp only [List.length_cons] at hi; omega)

theorem filterMap_const_none {α β : Type} :
    ∀ l : List α, l.filterMap (fun _ => (none : Option β)) = [] := by
  intro l
  induction l with
  | nil => rfl
  | cons a l ih => simpa using ih

theorem filterMap_id_some {α : Type} :
    ∀ l : List α, l.filterMap (fun a => some a) = l := by
  intro l
  induction l with
  | nil => rfl
  | cons a l ih => simpa using ih

theorem doc_passages_getElem? {E : Type} (task : DocTask E) (i : Nat) :
    (doc_passages task)[i]? =
      ((task.text_blocks.zip (task.embeddings.drop 1))[i]?).map
        (fun pr => (new_passage_id task i,
          build_vespa_document_passage task.document_metadata.import_id
            search_weights_ref pr.1 pr.2)) := by
  unfold doc_passages passage_pairs
  rw [List.getElem?_map, List.getElem?_enum]
  cases (task.text_blocks.zip (task.embeddings.drop 1))[i]? <;> rfl

theorem doc_passages_length {E : Type} (task : DocTask E) :
    (doc_passages task).length
      = min task.text_blocks.length (task.embeddings.length - 1) := by
  unfold doc_passages passage_pairs
  simp

theorem doc_events_ok {E : Type} (fetch : String → List String) (task : DocTask E)
    (evs : List (GenEvent E)) (h : doc_events fetch task = Except.ok evs) :
    ∃ fam : VespaFamilyDocument E,
      build_vespa_family_document task task.embeddings search_weights_ref
          = Except.ok fam
      ∧ evs = GenEvent.yield SchemaName.family_document task.document_metadata.import_id
              (VespaRecord.family_document fam)
            :: (doc_passages task).map (fun p =>
                GenEvent.yield SchemaName.document_passage p.1
                  (VespaRecord.document_passage p.2))
            ++ (if (determine_stray_ids (fetch task.document_metadata.import_id)
                    (new_passage_ids task)).isEmpty
                then []
                else (determine_stray_ids (fetch task.document_metadata.import_id)
                    (new_passage_ids task)).map
                  (fun i => GenEvent.delete_data SchemaName.document_passage i)) := by
  unfold doc_events at h
  cases hb : build_vespa_family_document task task.embeddings search_weights_ref with
  | error e =>
      rw [hb] at h
      simp [Bind.bind, Except.bind] at h
  | ok fam =>
      rw [hb] at h
      simp only [Bind.bind, Except.bind, Except.ok.injEq] at h
      exact ⟨fam, rfl, h.symm⟩

theorem determine_stray_ids_toFinset (existing fresh : List String) :
    (determine_stray_ids existing fresh).toFinset
      = existing.toFinset \ fresh.toFinset := by
  unfold determine_stray_ids
  ext x
  simp [List.mem_dedup, List.mem_filter]

theorem delete_ids_of_doc_events {E : Type} (fetch : String → List String)
    (task : DocTask E) (evs : List (GenEvent E))
    (h : doc_events fetch task = Except.ok evs) :
    delete_ids evs
      = determine_stray_ids (fetch task.document_metadata.import_id)
          (new_passage_ids task) := by
  obtain ⟨fam, _, hevs⟩ := doc_events_ok fetch task evs h
  subst hevs
  unfold delete_ids
  have hpass : List.filterMap GenEvent.delete_id? ((doc_passages task).map (fun p =>
      GenEvent.yield SchemaName.document_passage p.1
        (VespaRecord.document_passage p.2))) = [] := by
    rw [List.filterMap_map]
    exact filterMap_const_none _
  by_cases hstr : (determine_stray_ids (fetch task.document_metadata.import_id)
      (new_passage_ids task)).isEmpty = true
  · rw [if_pos hstr]
    simp only [List.filterMap_cons, List.filterMap_append, hpass, List.filterMap_nil,
      GenEvent.delete_id?]
    simp [List.isEmpty_iff.mp hstr]
  · rw [if_neg hstr]
    simp only [List.filterMap_cons, List.filterMap_append, hpass, List.filterMap_map,
      GenEvent.delete_id?]
    have hcomp : (GenEvent.delete_id? ∘ fun i : String =>
        GenEvent.delete_data (E := E) SchemaName.document_passage i)
        = fun i : String => some i := rfl
    rw [hcomp]
    exact filterMap_id_some _

/-- C1: for every processed document, the stray-id set computed by the
generator is exactly (existing passage ids fetched from the index) minus
(passage ids freshly generated for the document), the per-id delete call is
made exactly once for each member of that set, and the set of passage ids
indexed for the document after a successful run is exactly the freshly
generated set. -/
theorem c1_stray_reconciliation {E : Type} (fetch : String → List String)
    (task : DocTask E) (evs : List (GenEvent E))
    (h : doc_events fetch task = Except.ok evs) :
    (∀ existing fresh : List String,
        (determine_stray_ids existing fresh).toFinset
            = existing.toFinset \ fresh.toFinset
        ∧ (determine_stray_ids existing fresh).Nodup)
    ∧ delete_ids evs
        = determine_stray_ids (fetch task.document_metadata.import_id)
            (new_passage_ids task)
    ∧ index_after_run (fetch task.document_metadata.import_id).toFinset
        (new_passage_ids task) (delete_ids evs)
        = (new_passage_ids task).toFinset := by
  refine ⟨fun existing fresh =>
      ⟨determine_stray_ids_toFinset existing fresh, List.nodup_dedup _⟩,
    delete_ids_of_doc_events fetch task evs h, ?_⟩
  rw [delete_ids_of_doc_events fetch task evs h]
  unfold index_after_run
  rw [determine_stray_ids_toFinset, Finset.sdiff_sdiff_self_left]
  ext x
  simp only [Finset.mem_union, Finset.mem_inter]
  tauto

/-- Concrete check for C1: the spec's reconciliation example on
`determine_stray_ids`, and a full run of the three-block document `A` against
a backend already holding `A.0` to `A.3`, which deletes exactly the stray
`A.3` and leaves exactly the fresh ids indexed. -/
theorem c1_witness :
    (determine_stray_ids ["A.1", "A.2", "A.3", "A.4"] ["A.1", "A.2", "A.3"]).toFinset
        = {"A.4"}
    ∧ delete_ids example_run_events = ["A.3"]
    ∧ index_after_run (example_fetch "A").toFinset (new_passage_ids example_task)
        (delete_ids example_run_events) = (new_passage_ids example_task).toFinset := by
  have h := c1_stray_reconciliation example_fetch example_task example_run_events (by rfl)
  refine ⟨?_, ?_, h.2.2⟩
  · rw [(h.1 ["A.1", "A.2", "A.3", "A.4"] ["A.1", "A.2", "A.3"]).1]
    decide
  · rw [h.2.1]
    decide

/-- C2: for every document, the number of passages yielded equals the number
of text blocks remaining after filtering, and the embedding stored in the
passage at filtered position `i` is row `i + 1` of the document's embedding
matrix (row 0 being the description embedding). -/
theorem c2_alignment {E : Type} (task : DocTask E)
    (h : task.embeddings.length = task.text_blocks.length + 1) :
    (doc_passages task).length = task.text_blocks.length
    ∧ ∀ i : Nat, ((doc_passages task)[i]?).map (fun p => p.2.text_embedding)
        = task.embeddings[i + 1]? := by
  constructor
  · rw [doc_passages_length, h]
    simp
  · intro i
    rw [doc_passages_getElem?, Option.map_map]
    have hlen : task.text_blocks.length = (task.embeddings.drop 1).length := by
      simp [h]
    have hz := zip_getElem?_snd task.text_blocks (task.embeddings.drop 1) hlen i
    calc ((task.text_blocks.zip (task.embeddings.drop 1))[i]?).map _
        = ((task.text_blocks.zip (task.embeddings.drop 1))[i]?).map Prod.snd := rfl
      _ = (task.embeddings.drop 1)[i]? := hz
      _ = task.embeddings[i + 1]? := by rw [List.getElem?_drop, Nat.add_comm]

/-- Concrete check for C2 on the three-block document `A`: three passages for
three blocks, and the passage at position 1 carries embedding row 2. -/
theorem c2_witness :
    example_task.embeddings.length = example_task.text_blocks.length + 1
    ∧ (doc_passages example_task).length = example_task.text_blocks.length
    ∧ ((doc_passages example_task)[1]?).map (fun p => p.2.text_embedding)
        = example_task.embeddings[2]? :=
  ⟨by decide, (c2_alignment example_task (by decide)).1,
    (c2_alignment example_task (by decide)).2 1⟩

theorem gen_loop_no_sw {E : Type} (fetch : String → List String) :
    ∀ (tasks : List (DocTask E)) (e : GenEvent E),
      e ∈ (gen_loop fetch tasks).1 → is_search_weights_yield e = false := by
  intro tasks
  induction tasks with
  | nil => intro e he; simp [gen_loop] at he
  | cons t ts ih =>
      intro e he
      unfold gen_loop at he
      cases hd : doc_events fetch t with
      | error err => rw [hd] at he; simp at he
      | ok evs =>
          rw [hd] at he
          simp only [List.mem_append] at he
          rcases he with he | he
          · obtain ⟨fam, _, hevs⟩ := doc_events_ok fetch t evs hd
            subst hevs
            rcases List.mem_cons.mp he with rfl | he
            · rfl
            rcases List.mem_append.mp he with he | he
            · obtain ⟨p, _, rfl⟩ := List.mem_map.mp he
              rfl
            · have hdel : ∃ a, e = GenEvent.delete_data SchemaName.document_passage a := by
                by_cases hstr : (determine_stray_ids (fetch t.document_metadata.import_id)
                    (new_passage_ids t)).isEmpty = true
                · rw [if_pos hstr] at he
                  simp at he
                · rw [if_neg hstr] at he
                  obtain ⟨p, _, rfl⟩ := List.mem_map.mp he
                  exact ⟨p, rfl⟩
              obtain ⟨a, rfl⟩ := hdel
              rfl
          · exact ih e he

/-- C3: for every batch of documents (any size, zero included), the generator
yields exactly one ranking-weights record per run, and it is the very first
record of the stream, before any family-document or passage record. -/
theorem c3_search_weights_singleton {E : Type} (fetch : String → List String)
    (tasks : List (DocTask E)) :
    ((get_document_generator fetch tasks).1).head?
      = some (GenEvent.yield SchemaName.search_weights search_weights_id
          (VespaRecord.search_weights default_search_weights))
    ∧ (((get_document_generator fetch tasks).1).filter is_search_weights_yield).length
        = 1 := by
  constructor
  · rfl
  · have hcons : ((get_document_generator fetch tasks).1).filter is_search_weights_yield
        = GenEvent.yield SchemaName.search_weights search_weights_id
            (VespaRecord.search_weights default_search_weights)
          :: ((gen_loop fetch tasks).1).filter is_search_weights_yield := rfl
    have hnil : ((gen_loop fetch tasks).1).filter is_search_weights_yield = [] := by
      rw [List.filter_eq_nil_iff]
      intro e he
      simp [gen_loop_no_sw fetch tasks e he]
    rw [hcons, hnil]
    rfl

/-- C5: every passage yielded for a document has record id
`{document_id}.{sequence_number}` where the sequence number is its 0-based
position among the filtered, order-preserving text blocks of the run, and the
passage at position `i` is built from the block at position `i`. -/
theorem c5_passage_identity {E : Type} (task : DocTask E) (i : Nat)
    (hi : i < (doc_passages task).length) :
    ((doc_passages task)[i]?).map Prod.fst
      = some (task.document_id ++ "." ++ toString i)
    ∧ ((doc_passages task)[i]?).map (fun p => p.2.text_block_id)
      = (task.text_blocks[i]?).map TextBlock.text_block_id := by
  have hd : (task.embeddings.drop 1).length = task.embeddings.length - 1 := by
    simp
  have hz : i < (task.text_blocks.zip (task.embeddings.drop 1)).length := by
    rw [List.length_zip, hd]
    rw [doc_passages_length] at hi
    omega
  have hdrop : i < (task.embeddings.drop 1).length := by
    rw [List.length_zip, hd] at hz
    omega
  constructor
  · rw [doc_passages_getElem?, List.getElem?_eq_getElem hz]
    rfl
  · rw [doc_passages_getElem?, Option.map_map]
    have hfst := zip_getElem?_fst task.text_blocks (task.embeddings.drop 1) i hdrop
    calc ((task.text_blocks.zip (task.embeddings.drop 1))[i]?).map _
        = (((task.text_blocks.zip (task.embeddings.drop 1))[i]?).map Prod.fst).map
            TextBlock.text_block_id := by
          rw [Option.map_map]; rfl
      _ = (task.text_blocks[i]?).map TextBlock.text_block_id := by rw [hfst]

/-- Concrete check for C5 on the three-block document `A`: the passage at
position 1 is `A.1` and is built from block `b1`. -/
theorem c5_witness :
    1 < (doc_passages example_task).length
    ∧ ((doc_passages example_task)[1]?).map Prod.fst
        = some (example_task.document_id ++ "." ++ toString 1)
    ∧ ((doc_passages example_task)[1]?).map (fun p => p.2.text_block_id)
        = (example_task.text_blocks[1]?).map TextBlock.text_block_id :=
  ⟨by decide, (c5_passage_identity example_task 1 (by decide)).1,
    (c5_passage_identity example_task 1 (by decide)).2⟩

theorem get_existing_full_pages (all_ids : List String) :
    ∀ (fuel offset : Nat), all_ids.length ≤ offset + (fuel + 1) * max_hits →
      get_existing_passage_ids (full_page_backend all_ids) (fuel + 1) offset
        = some ((all_ids.drop offset).map hit_passage_id) := by
  intro fuel
  induction fuel with
  | zero =>
      intro offset h
      simp only [get_existing_passage_ids, full_page_backend]
      rw [if_neg]
      · have htake : (all_ids.drop offset).take max_hits = all_ids.drop offset := by
          apply List.take_of_length_le
          simp
          omega
        rw [htake]
      · simp
        omega
  | succ m ih =>
      intro offset h
      by_cases hc : all_ids.length ≤ offset + max_hits
      · simp only [get_existing_passage_ids, full_page_backend]
        rw [if_neg]
        · have htake : (all_ids.drop offset).take max_hits = all_ids.drop offset := by
            apply List.take_of_length_le
            simp
            omega
          rw [htake]
        · simp
          omega
      · rw [get_existing_passage_ids]
        simp only [full_page_backend]
        have hlen : ((all_ids.drop offset).take max_hits).length
            = min max_hits (all_ids.length - offset) := by
          simp
        rw [if_pos (by rw [hlen]; omega)]
        have hrec : all_ids.length ≤ (offset + max_hits) + (m + 1) * max_hits := by
          rw [Nat.succ_mul] at h
          omega
        rw [ih (offset + max_hits) hrec]
        have hdd : all_ids.drop (offset + max_hits) = (all_ids.drop offset).drop max_hits := by
          rw [List.drop_drop, Nat.add_comm]
        simp only [hdd, ← List.map_append, List.take_append_drop]

/-- A counterexample for C4: a backend holding the two passages `A.0` and
`A.1` of one document, reporting a total of 2 matches but returning pages of
a single hit — smaller than the requested page size of 5000.  The first page
is partial (the loop does continue), yet the accumulated result misses
`A.1`, because the offset advances by the requested page size rather than by
the number of hits actually returned. -/
theorem c4_counterexample :
    (capped_page_backend 0).hits.length + 0
        < (capped_page_backend 0).number_documents_retrieved
    ∧ (capped_page_backend 0).hits.length < max_hits
    ∧ get_existing_passage_ids capped_page_backend 5 0 = some ["A.0"]
    ∧ hit_passage_id "id:doc_search:document_passage::A.1" = "A.1"
    ∧ ("A.1" : String) ∉ ["A.0"] := by
  refine ⟨by decide, by decide, ?_, by decide, by decide⟩
  decide

/-- C4 (amended): `get_existing_passage_ids` pages through the backend with
offsets increasing by the requested page size until the reported total is
exhausted, and it accumulates the full id list provided the backend fills
every page to the requested size (`min max_hits (total - offset)` hits from
position `offset`); with pages smaller than the requested 5000 the offset
still advances by 5000, so ids can be skipped. -/
theorem c4_full_pages_accumulate (all_ids : List String) (fuel : Nat)
    (h : all_ids.length ≤ (fuel + 1) * max_hits) :
    get_existing_passage_ids (full_page_backend all_ids) (fuel + 1) 0
      = some (all_ids.map hit_passage_id) := by
  have := get_existing_full_pages all_ids fuel 0 (by omega)
  simpa using this

/-- Concrete check for C4 (amended): a full-page backend holding two hits is
drained completely in one page. -/
theorem c4_witness :
    (["id:doc_search:document_passage::A.0",
        "id:doc_search:document_passage::A.1"].length ≤ (0 + 1) * max_hits)
    ∧ get_existing_passage_ids
        (full_page_backend ["id:doc_search:document_passage::A.0",
          "id:doc_search:document_passage::A.1"]) (0 + 1) 0
        = some ["A.0", "A.1"] := by
  refine ⟨by decide, ?_⟩
  rw [c4_full_pages_accumulate ["id:doc_search:document_passage::A.0",
    "id:doc_search:document_passage::A.1"] 0 (by decide)]
  decide

theorem validate_filters_loop_example :
    validate_filters_loop example_recognized ["Table", "ThisIsNotABlockType"] 0
      = Except.error (PyExc.valueError "ThisIsNotABlockType") := by
  rw [validate_filters_loop]
  simp only [block_types_call, example_recognized]
  norm_num
  rw [validate_filters_loop]
  simp only [block_types_call, example_recognized]
  norm_num
  rw [if_neg (by decide)]

/-- C6: at the failing input — an exclusion list holding the recognized label
`"Table"` and the unrecognized string `"ThisIsNotABlockType"` — the block
filter raises a `ValueError` out of `filter_on_block_type` instead of
dropping the unrecognized label with a warning: the `try` around
`BlockTypes(_filter)` catches only `NameError`, which an `Enum` lookup never
raises, so the claimed graceful degradation never happens. -/
theorem c6_unrecognized_filter_label_raises :
    filter_on_block_type example_recognized [example_filter_input]
        ["Table", "ThisIsNotABlockType"]
      = Except.error (PyExc.valueError "ThisIsNotABlockType")
    ∧ example_recognized "Table" = true
    ∧ example_recognized "ThisIsNotABlockType" = false := by
  refine ⟨?_, by decide, by decide⟩
  unfold filter_on_block_type
  rw [validate_filters_loop_example]
  rfl

theorem metadata_item_new_error_shape (k : String) (val : PyValue) (e : PyExc)
    (h : metadata_item_new k val = Except.error e) :
    ∃ w, e = PyExc.validationError w := by
  cases val with
  | str s => simp [metadata_item_new] at h
  | int n =>
      simp only [metadata_item_new, Except.error.injEq] at h
      exact ⟨PyValue.int n, h.symm⟩
  | bool b =>
      simp only [metadata_item_new, Except.error.injEq] at h
      exact ⟨PyValue.bool b, h.symm⟩
  | pyNone =>
      simp only [metadata_item_new, Except.error.injEq] at h
      exact ⟨PyValue.pyNone, h.symm⟩

theorem inner_value_ok (k : String) (v : PyValue) (s : String)
    (h : py_coerce_str v = some s) :
    metadata_item_new k (if pyIsInstanceInt v then PyValue.str (pyStrOf v) else v)
      = Except.ok { name := k, value := s } := by
  cases v with
  | str t =>
      simp only [py_coerce_str, Option.some.injEq] at h
      subst h
      rfl
  | int n =>
      simp only [py_coerce_str, Option.some.injEq] at h
      subst h
      rfl
  | bool b =>
      simp only [py_coerce_str, Option.some.injEq] at h
      subst h
      rfl
  | pyNone => simp [py_coerce_str] at h

theorem inner_value_error (k : String) (v : PyValue) (h : py_coerce_str v = none) :
    metadata_item_new k (if pyIsInstanceInt v then PyValue.str (pyStrOf v) else v)
      = Except.error (PyExc.validationError v) := by
  cases v with
  | str t => simp [py_coerce_str] at h
  | int n => simp [py_coerce_str] at h
  | bool b => simp [py_coerce_str] at h
  | pyNone => rfl

theorem map_metadata_items_ok (k : String) : ∀ (vs : List PyValue),
    (∀ v ∈ vs, (py_coerce_str v).isSome) →
    map_metadata_items k vs
      = Except.ok (vs.filterMap (fun v => (py_coerce_str v).map
          (fun s => ({ name := k, value := s } : MetadataItem)))) := by
  intro vs
  induction vs with
  | nil => intro _; rfl
  | cons v vs ih =>
      intro h
      obtain ⟨s, hs⟩ := Option.isSome_iff_exists.mp (h v (List.mem_cons_self v vs))
      simp only [map_metadata_items]
      rw [inner_value_ok k v s hs, ih (fun u hu => h u (List.mem_cons_of_mem v hu))]
      simp [List.filterMap_cons, hs, Bind.bind, Except.bind]

theorem map_metadata_items_error_shape (k : String) : ∀ (vs : List PyValue) (e : PyExc),
    map_metadata_items k vs = Except.error e →
    ∃ w, e = PyExc.validationError w := by
  intro vs
  induction vs with
  | nil => intro e h; simp [map_metadata_items] at h
  | cons v vs ih =>
      intro e h
      simp only [map_metadata_items] at h
      cases hv : metadata_item_new k
          (if pyIsInstanceInt v then PyValue.str (pyStrOf v) else v) with
      | error e1 =>
          rw [hv] at h
          simp only [Bind.bind, Except.bind, Except.error.injEq] at h
          subst h
          exact metadata_item_new_error_shape k _ e1 hv
      | ok x =>
          rw [hv] at h
          simp only [Bind.bind, Except.bind] at h
          cases hrest : map_metadata_items k vs with
          | error e2 =>
              rw [hrest] at h
              simp only [Except.error.injEq] at h
              subst h
              exact ih e2 hrest
          | ok xs =>
              rw [hrest] at h
              simp at h

theorem map_metadata_items_error (k : String) : ∀ (vs : List PyValue),
    (∃ v ∈ vs, py_coerce_str v = none) →
    ∃ w, map_metadata_items k vs = Except.error (PyExc.validationError w) := by
  intro vs
  induction vs with
  | nil => intro h; simp at h
  | cons v vs ih =>
      intro h
      obtain ⟨v0, hmem, hbad⟩ := h
      rcases List.mem_cons.mp hmem with rfl | hmem0
      · refine ⟨v0, ?_⟩
        simp only [map_metadata_items]
        rw [inner_value_error k v0 hbad]
        rfl
      · cases hv : metadata_item_new k
            (if pyIsInstanceInt v then PyValue.str (pyStrOf v) else v) with
        | error e1 =>
            obtain ⟨w, hw⟩ := metadata_item_new_error_shape k _ e1 hv
            subst hw
            refine ⟨w, ?_⟩
            simp only [map_metadata_items]
            rw [hv]
            rfl
        | ok x =>
            obtain ⟨w, hw⟩ := ih ⟨v0, hmem0, hbad⟩
            refine ⟨w, ?_⟩
            simp only [map_metadata_items]
            rw [hv]
            show (Except.ok x >>= fun item =>
              map_metadata_items k vs >>= fun items =>
                Except.ok (item :: items)) = _
            rw [hw]
            rfl

theorem reshape_metadata_ok (m : List (String × List PyValue))
    (h : ∀ kv ∈ m, ∀ v ∈ kv.2, (py_coerce_str v).isSome) :
    reshape_metadata (some m) = Except.ok (some
      ((m.map (fun kv => kv.2.filterMap (fun v => (py_coerce_str v).map
        (fun s => ({ name := kv.1, value := s } : MetadataItem))))).flatten)) := by
  have houter : ∀ mm : List (String × List PyValue),
      (∀ kv ∈ mm, ∀ v ∈ kv.2, (py_coerce_str v).isSome) →
      reshape_metadata_items mm
        = Except.ok ((mm.map (fun kv => kv.2.filterMap (fun v => (py_coerce_str v).map
            (fun s => ({ name := kv.1, value := s } : MetadataItem))))).flatten) := by
    intro mm
    induction mm with
    | nil => intro _; rfl
    | cons kv mm ih =>
        intro hh
        simp only [reshape_metadata_items]
        rw [map_metadata_items_ok kv.1 kv.2 (hh kv (List.mem_cons_self kv mm)),
          ih (fun u hu => hh u (List.mem_cons_of_mem kv hu))]
        simp [Bind.bind, Except.bind]
  show (reshape_metadata_items m >>= fun items => Except.ok (some items)) = _
  rw [houter m h]
  rfl

theorem reshape_metadata_bad (m : List (String × List PyValue)) (kv : String × List PyValue)
    (hkv : kv ∈ m) (v : PyValue) (hv : v ∈ kv.2) (hbad : py_coerce_str v = none) :
    ∃ w, reshape_metadata (some m) = Except.error (PyExc.validationError w) := by
  have houter : ∀ mm : List (String × List PyValue), kv ∈ mm →
      ∃ w, reshape_metadata_items mm = Except.error (PyExc.validationError w) := by
    intro mm
    induction mm with
    | nil => intro hmem; simp at hmem
    | cons kv0 mm ih =>
        intro hmem
        rcases List.mem_cons.mp hmem with heq | hmem0
        · obtain ⟨w, hw⟩ := map_metadata_items_error kv0.1 kv0.2
            ⟨v, by rw [← heq]; exact hv, by exact hbad⟩
          refine ⟨w, ?_⟩
          simp only [reshape_metadata_items]
          rw [hw]
          rfl
        · cases hfirst : map_metadata_items kv0.1 kv0.2 with
          | error e1 =>
              obtain ⟨w, hw⟩ := map_metadata_items_error_shape kv0.1 kv0.2 e1 hfirst
              subst hw
              refine ⟨w, ?_⟩
              simp only [reshape_metadata_items]
              rw [hfirst]
              rfl
          | ok x =>
              obtain ⟨w, hw⟩ := ih hmem0
              refine ⟨w, ?_⟩
              simp only [reshape_metadata_items]
              rw [hfirst]
              show (Except.ok x >>= fun items =>
                reshape_metadata_items mm >>= fun more =>
                  Except.ok (items ++ more)) = _
              rw [hw]
              rfl
  obtain ⟨w, hw⟩ := houter m hkv
  refine ⟨w, ?_⟩
  show (reshape_metadata_items m >>= fun items => Except.ok (some items)) = _
  rw [hw]
  rfl

theorem build_metadata_passthrough {E : Type} (task : DocTask E) (r : String)
    (hne : task.embeddings ≠ []) :
    (build_vespa_family_document task task.embeddings r).map (fun d => d.metadata)
      = reshape_metadata task.document_metadata.metadata := by
  cases hemb : task.embeddings with
  | nil => exact absurd hemb hne
  | cons e es =>
      unfold build_vespa_family_document
      cases hr : reshape_metadata task.document_metadata.metadata with
      | error er => simp [hr, Bind.bind, Except.bind, Except.map]
      | ok md => simp [hr, Bind.bind, Except.bind, Except.map]

/-- C7 (amended): `build_vespa_family_document` flattens the metadata map
into (name, value) pairs and fails with a `ValidationError` when a value has
a type pydantic cannot accept for the `str` field — but `int` and `bool`
values are first converted with `str()` (Python booleans being `int`s), so a
boolean metadata value IS silently substituted by the string `"True"` or
`"False"` rather than raising. -/
theorem c7_metadata_flattening :
    (∀ (k : String) (b : Bool),
        reshape_metadata (some [(k, [PyValue.bool b])])
          = Except.ok (some [{ name := k, value := if b then "True" else "False" }]))
    ∧ (∀ m : List (String × List PyValue),
        (∀ kv ∈ m, ∀ v ∈ kv.2, (py_coerce_str v).isSome) →
        reshape_metadata (some m) = Except.ok (some
          ((m.map (fun kv => kv.2.filterMap (fun v => (py_coerce_str v).map
            (fun s => ({ name := kv.1, value := s } : MetadataItem))))).flatten)))
    ∧ (∀ (m : List (String × List PyValue)) (kv : String × List PyValue), kv ∈ m →
        ∀ v ∈ kv.2, py_coerce_str v = none →
        ∃ w, reshape_metadata (some m) = Except.error (PyExc.validationError w))
    ∧ (∀ (E : Type) (task : DocTask E) (r : String), task.embeddings ≠ [] →
        (build_vespa_family_document task task.embeddings r).map (fun d => d.metadata)
          = reshape_metadata task.document_metadata.metadata) := by
  refine ⟨?_, reshape_metadata_ok, ?_, ?_⟩
  · intro k b
    rw [reshape_metadata_ok [(k, [PyValue.bool b])] ?_]
    · cases b <;> rfl
    · intro kv hkv v hv
      simp only [List.mem_singleton] at hkv
      subst hkv
      simp only [List.mem_singleton] at hv
      subst hv
      rfl
  · intro m kv hkv v hv hbad
    exact reshape_metadata_bad m kv hkv v hv hbad
  · intro E task r hne
    exact build_metadata_passthrough task r hne

/-- Counterexample for C7: with metadata `{"sector": [True]}` the family
document builds successfully and stores the string `"True"` — the boolean is
silently substituted for a string, no `ValidationError` is raised. -/
theorem c7_counterexample :
    (build_vespa_family_document example_bool_metadata_task
        example_bool_metadata_task.embeddings search_weights_ref).map (fun d => d.metadata)
      = Except.ok (some [{ name := "sector", value := "True" }]) := by
  rfl

/-- Concrete check for C7 (amended): string and integer metadata values
flatten into (name, value) pairs in order, and a value of a type pydantic
cannot accept fails with a ValidationError. -/
theorem c7_witness :
    reshape_metadata (some [("sector", [PyValue.str "energy", PyValue.int 3])])
      = Except.ok (some [{ name := "sector", value := "energy" },
          { name := "sector", value := "3" }])
    ∧ (∃ w, reshape_metadata (some [("sector", [PyValue.pyNone])])
        = Except.error (PyExc.validationError w)) := by
  constructor
  · rw [c7_metadata_flattening.2.1 [("sector", [PyValue.str "energy", PyValue.int 3])]
      (by decide)]
    rfl
  · exact c7_metadata_flattening.2.2.1 [("sector", [PyValue.pyNone])]
      ("sector", [PyValue.pyNone]) (by simp) PyValue.pyNone (by simp) rfl

theorem fam_ref_literal (x : String) :
    "id:" ++ NAMESPACE ++ ":family_document::" ++ x
      = "id:doc_search:family_document::" ++ x :=
  congrArg (· ++ x) (by rfl)

theorem build_family_sw_ref {E : Type} (task : DocTask E) (embeddings : List E)
    (r : String) (fam : VespaFamilyDocument E)
    (h : build_vespa_family_document task embeddings r = Except.ok fam) :
    fam.search_weights_ref = r := by
  unfold build_vespa_family_document at h
  cases embeddings with
  | nil => simp [Bind.bind, Except.bind] at h
  | cons e es =>
      cases hr : reshape_metadata task.document_metadata.metadata with
      | error er =>
          rw [hr] at h
          simp [Bind.bind, Except.bind] at h
      | ok md =>
          rw [hr] at h
          simp only [Bind.bind, Except.bind, Except.ok.injEq] at h
          rw [← h]

/-- C9: referential integrity of the generated stream — every yielded
passage carries a `family_document_ref` equal to
`"id:doc_search:family_document::"` followed by the id under which the
family-document record of the same source document is yielded, and every
family-document and passage record carries the `search_weights_ref`
`"id:doc_search:search_weights::default_weights"`, which is the id of the
single ranking-weights record the run yields first. -/
theorem c9_referential_integrity {E : Type} (fetch : String → List String)
    (task : DocTask E) (evs : List (GenEvent E))
    (h : doc_events fetch task = Except.ok evs) :
    (∃ fam, evs.head? = some (GenEvent.yield SchemaName.family_document
        task.document_metadata.import_id (VespaRecord.family_document fam)))
    ∧ (∀ e ∈ evs, ∀ s i p, e = GenEvent.yield s i (VespaRecord.document_passage p) →
        p.family_document_ref
            = "id:doc_search:family_document::" ++ task.document_metadata.import_id
        ∧ p.search_weights_ref = "id:doc_search:search_weights::default_weights")
    ∧ (∀ e ∈ evs, ∀ s i d, e = GenEvent.yield s i (VespaRecord.family_document d) →
        i = task.document_metadata.import_id
        ∧ d.search_weights_ref = "id:doc_search:search_weights::default_weights")
    ∧ (∀ tasks : List (DocTask E), ((get_document_generator fetch tasks).1).head?
        = some (GenEvent.yield SchemaName.search_weights search_weights_id
            (VespaRecord.search_weights default_search_weights))) := by
  obtain ⟨fam, hb, hevs⟩ := doc_events_ok fetch task evs h
  subst hevs
  refine ⟨⟨fam, rfl⟩, ?_, ?_, fun tasks => rfl⟩
  · intro e he s i p hep
    subst hep
    rcases List.mem_cons.mp he with heq | he2
    · simp at heq
    rcases List.mem_append.mp he2 with he3 | he3
    · obtain ⟨q, hq, heq⟩ := List.mem_map.mp he3
      obtain ⟨pr, hpr, rfl⟩ := List.mem_map.mp hq
      simp only [GenEvent.yield.injEq, VespaRecord.document_passage.injEq] at heq
      rw [← heq.2.2]
      constructor
      · exact fam_ref_literal task.document_metadata.import_id
      · rfl
    · by_cases hstr : (determine_stray_ids (fetch task.document_metadata.import_id)
          (new_passage_ids task)).isEmpty = true
      · rw [if_pos hstr] at he3
        simp at he3
      · rw [if_neg hstr] at he3
        obtain ⟨a, _, heq⟩ := List.mem_map.mp he3
        simp at heq
  · intro e he s i d hed
    subst hed
    rcases List.mem_cons.mp he with heq | he2
    · simp only [GenEvent.yield.injEq, VespaRecord.family_document.injEq] at heq
      refine ⟨heq.2.1, ?_⟩
      rw [heq.2.2, build_family_sw_ref task task.embeddings search_weights_ref fam hb]
      rfl
    rcases List.mem_append.mp he2 with he3 | he3
    · obtain ⟨q, _, heq⟩ := List.mem_map.mp he3
      simp at heq
    · by_cases hstr : (determine_stray_ids (fetch task.document_metadata.import_id)
          (new_passage_ids task)).isEmpty = true
      · rw [if_pos hstr] at he3
        simp at he3
      · rw [if_neg hstr] at he3
        obtain ⟨a, _, heq⟩ := List.mem_map.mp he3
        simp at heq

/-- Concrete check for C9: the run on the example document, whose passages
all reference `id:doc_search:family_document::A` and whose records all
reference `id:doc_search:search_weights::default_weights`. -/
theorem c9_witness :
    doc_events example_fetch example_task = Except.ok example_run_events
    ∧ ((∃ fam, example_run_events.head? = some (GenEvent.yield SchemaName.family_document
        example_task.document_metadata.import_id (VespaRecord.family_document fam)))
    ∧ (∀ e ∈ example_run_events, ∀ s i p,
        e = GenEvent.yield s i (VespaRecord.document_passage p) →
        p.family_document_ref
            = "id:doc_search:family_document::" ++ example_task.document_metadata.import_id
        ∧ p.search_weights_ref = "id:doc_search:search_weights::default_weights")
    ∧ (∀ e ∈ example_run_events, ∀ s i d,
        e = GenEvent.yield s i (VespaRecord.family_document d) →
        i = example_task.document_metadata.import_id
        ∧ d.search_weights_ref = "id:doc_search:search_weights::default_weights")
    ∧ (∀ tasks : List (DocTask Nat),
        ((get_document_generator example_fetch tasks).1).head?
          = some (GenEvent.yield SchemaName.search_weights search_weights_id
              (VespaRecord.search_weights default_search_weights)))) :=
  ⟨rfl, c9_referential_integrity example_fetch example_task example_run_events rfl⟩

theorem retry_attempts_all_fail (call : Nat → Except PyExc Unit) (err : Nat → PyExc) :
    ∀ (retries attempt : Nat),
      (∀ k, attempt ≤ k → k ≤ attempt + retries → call k = Except.error (err k)) →
      retry_attempts call retries attempt = Except.error (err (attempt + retries)) := by
  intro retries
  induction retries with
  | zero =>
      intro attempt h
      simpa [retry_attempts] using h attempt le_rfl (by omega)
  | succ n ih =>
      intro attempt h
      calc retry_attempts call (n + 1) attempt
          = retry_attempts call n (attempt + 1) := by
            simp only [retry_attempts]
            rw [h attempt le_rfl (by omega)]
        _ = Except.error (err (attempt + 1 + n)) :=
            ih (attempt + 1) (fun k hk1 hk2 => h k (by omega) (by omega))
        _ = Except.error (err (attempt + (n + 1))) := by
            rw [show attempt + 1 + n = attempt + (n + 1) by omega]

/-- C8: whenever the backend reports a non-success status, the per-record
feed callback raises an ingestion error carrying the record id and the
response body; when every attempt of the whole flush fails, the flush is
retried with exponentially growing backoff up to the fixed attempt count,
after which the last error propagates and the run exits non-zero. -/
theorem c8_flush_retry {φ : Type} (respond : Nat → String → VespaResponse)
    (to_process : ToProcess φ) (err : Nat → PyExc)
    (hfail : ∀ attempt, 1 ≤ attempt → attempt ≤ stop_after_attempt →
        batch_ingest (respond attempt) to_process = Except.error (err attempt)) :
    (∀ (response : VespaResponse) (id : String), response.is_successful = false →
        handle_feed_error response id = Except.error (PyExc.vespaIndexError
          ("Indexing Failed on document with id: " ++ id ++ ", body: " ++ response.json)))
    ∧ batch_ingest_with_retry respond to_process
        = Except.error (err stop_after_attempt)
    ∧ run_exit_code (batch_ingest_with_retry respond to_process) = 1
    ∧ (∀ n, wait_exponential (n + 1) = 2 * wait_exponential n) := by
  have hretry : batch_ingest_with_retry respond to_process
      = Except.error (err stop_after_attempt) := by
    have h2 := retry_attempts_all_fail
      (fun attempt => batch_ingest (respond attempt) to_process) err 9 1
      (fun k hk1 hk9 => hfail k hk1 (by simp only [stop_after_attempt]; omega))
    simpa [batch_ingest_with_retry, stop_after_attempt] using h2
  refine ⟨?_, hretry, ?_, ?_⟩
  · intro response id hresp
    simp [handle_feed_error, hresp]
  · rw [hretry]
    rfl
  · intro n
    simp [wait_exponential, pow_succ]
    ring

/-- Concrete check for C8: a backend rejecting the single buffered passage on
every attempt makes each flush raise the ingestion error with the record id
`A.0` and the body, and the retried flush propagates it, exiting non-zero. -/
theorem c8_witness :
    batch_ingest (example_respond 1) example_to_process
        = Except.error (PyExc.vespaIndexError
            "Indexing Failed on document with id: A.0, body: boom")
    ∧ batch_ingest_with_retry example_respond example_to_process
        = Except.error (PyExc.vespaIndexError
            "Indexing Failed on document with id: A.0, body: boom")
    ∧ run_exit_code (batch_ingest_with_retry example_respond example_to_process) = 1 := by
  have h := c8_flush_retry example_respond example_to_process
    (fun _ => PyExc.vespaIndexError "Indexing Failed on document with id: A.0, body: boom")
    (fun a h1 h2 => by rfl)
  exact ⟨by rfl, h.2.1, h.2.2.1⟩

theorem empty_buffer {φ : Type} (s0 : SchemaName) :
    (ToProcess.empty φ).buffer s0 = [] := by
  cases s0 <;> rfl

theorem append_buffer {φ : Type} (tp : ToProcess φ) (schema s0 : SchemaName)
    (doc : String × φ) :
    (tp.append schema doc).buffer s0
      = if schema = s0 then tp.buffer s0 ++ [doc] else tp.buffer s0 := by
  cases schema <;> cases s0 <;> simp [ToProcess.append, ToProcess.buffer]

theorem populate_flushes_ne_nil {φ : Type} (fields_empty : φ → Bool) (batch_size : Nat) :
    ∀ (records : List (SchemaName × String × φ)) (tp : ToProcess φ),
      populate_vespa_flushes fields_empty batch_size records tp ≠ [] := by
  intro records
  induction records with
  | nil => intro tp; simp [populate_vespa_flushes]
  | cons r rest ih =>
      intro tp
      obtain ⟨schema, doc_id, fields⟩ := r
      simp only [populate_vespa_flushes]
      by_cases he : fields_empty fields = true
      · rw [if_pos he]
        exact ih tp
      · rw [if_neg he]
        by_cases hb : batch_size ≤ (tp.append schema (doc_id, fields)).document_passage.length
        · rw [if_pos hb]
          simp
        · rw [if_neg hb]
          exact ih _

theorem populate_flushes_buffer {φ : Type} (fields_empty : φ → Bool) (batch_size : Nat)
    (s0 : SchemaName) :
    ∀ (records : List (SchemaName × String × φ)) (tp : ToProcess φ),
      ((populate_vespa_flushes fields_empty batch_size records tp).map
          (fun t => t.buffer s0)).flatten
        = tp.buffer s0 ++ (records.filter (fun r =>
            decide (r.1 = s0) && !(fields_empty r.2.2))).map (fun r => r.2) := by
  intro records
  induction records with
  | nil => intro tp; simp [populate_vespa_flushes]
  | cons r rest ih =>
      intro tp
      obtain ⟨schema, doc_id, fields⟩ := r
      simp only [populate_vespa_flushes]
      by_cases he : fields_empty fields = true
      · rw [if_pos he, ih tp]
        simp [List.filter_cons, he]
      · rw [if_neg he]
        by_cases hb : batch_size ≤ (tp.append schema (doc_id, fields)).document_passage.length
        · rw [if_pos hb]
          simp only [List.map_cons, List.flatten_cons]
          rw [ih (ToProcess.empty φ), empty_buffer, append_buffer]
          by_cases hs : schema = s0
          · rw [if_pos hs]
            simp [List.filter_cons, hs, he, List.append_assoc]
          · rw [if_neg hs]
            simp [List.filter_cons, hs, he]
        · rw [if_neg hb]
          rw [ih (tp.append schema (doc_id, fields)), append_buffer]
          by_cases hs : schema = s0
          · rw [if_pos hs]
            simp [List.filter_cons, hs, he, List.append_assoc]
          · rw [if_neg hs]
            simp [List.filter_cons, hs, he]

/-- C10: the ingestion loop of `populate_vespa` skips a record whose fields
dict is empty without buffering it, buffers every other record under its
schema, always performs a final flush after the generator is exhausted, and
the records flushed per schema across the whole run are exactly the
non-empty-fields records in their original order; no record yielded by the
document generator ever has an empty fields dict. -/
theorem c10_ingestion_loop {φ : Type} (fields_empty : φ → Bool) (batch_size : Nat)
    (records : List (SchemaName × String × φ)) :
    populate_vespa_flushes fields_empty batch_size records (ToProcess.empty φ) ≠ []
    ∧ (∀ s0 : SchemaName,
        ((populate_vespa_flushes fields_empty batch_size records (ToProcess.empty φ)).map
            (fun t => t.buffer s0)).flatten
          = (records.filter (fun r =>
              decide (r.1 = s0) && !(fields_empty r.2.2))).map (fun r => r.2))
    ∧ (∀ (schema : SchemaName) (doc_id : String) (fields : φ)
        (rest : List (SchemaName × String × φ)) (tp : ToProcess φ),
        fields_empty fields = true →
        populate_vespa_flushes fields_empty batch_size ((schema, doc_id, fields) :: rest) tp
          = populate_vespa_flushes fields_empty batch_size rest tp)
    ∧ (∀ (E : Type) (rec : VespaRecord E), (model_dump rec).isEmpty = false)
    ∧ (∀ (E : Type) (evs : List (GenEvent E))
        (r : SchemaName × String × List (String × FieldVal E)),
        r ∈ generator_tuples evs → r.2.2.isEmpty = false) := by
  refine ⟨populate_flushes_ne_nil fields_empty batch_size records (ToProcess.empty φ),
    ?_, ?_, ?_, ?_⟩
  · intro s0
    rw [populate_flushes_buffer fields_empty batch_size s0 records (ToProcess.empty φ),
      empty_buffer]
    rfl
  · intro schema doc_id fields rest tp hemp
    simp [populate_vespa_flushes, hemp]
  · intro E rec
    cases rec <;> rfl
  · intro E evs r hr
    simp only [generator_tuples, List.mem_filterMap] at hr
    obtain ⟨e, _, heq⟩ := hr
    cases e with
    | yield s i f =>
        simp only [Option.some.injEq] at heq
        subst heq
        cases f <;> rfl
    | delete_data s i => simp at heq

end NavigatorSearchIndexer
